import Mathlib

/-!
Verification of the perception-to-actuation core of `miscare_robot.py`
(class `AprilTagApp`): the debounced actuation gate inside `update_frame`,
the pixel-to-robot coordinate transform `convert_to_robot_coordinates`,
the actuation sequence `move_to_qr`, the centroid computation, and the
camera-switch handler `change_camera`.

Timestamps (`time.time()`) and pixel coordinates (detector corners are
floats, centers are truncated to machine ints) are modelled over `ℚ`/`ℤ`.
A MotionLink failure is a raised Python exception inside `move_to_qr`;
since the call sits inside the Qt timer slot `update_frame` with no
handler, a raise propagates out of the slot and ends the tick loop, and
the statements after the call (`self.last_move_time = current_time`, the
overlay loop) do not execute on that tick.
-/

namespace MiscareRobot

/-- Constant `self.move_delay = 3` (seconds), the cooldown interval. -/
def move_delay : ℚ := 3

/-- Constant `self.last_move_time = 0` set in `__init__`. -/
def init_last_move_time : ℚ := 0

/-- One detected marker: the four corner points (pixel coordinates, floats
from `corners[i].reshape((4, 2))`). -/
structure Marker where
  p0 : ℚ × ℚ
  p1 : ℚ × ℚ
  p2 : ℚ × ℚ
  p3 : ℚ × ℚ
deriving DecidableEq

/-- Truncation toward zero, the behaviour of numpy `.astype(int)` on a
float value: floor for nonnegative values, ceiling (as `-⌊-q⌋`) for
negative ones. -/
def ratTrunc (q : ℚ) : ℤ := if 0 ≤ q then ⌊q⌋ else -⌊-q⌋

/-- `corner.mean(axis=0)`: per-coordinate mean of the four corners. -/
def cornerMean (m : Marker) : ℚ × ℚ :=
  ((m.p0.1 + m.p1.1 + m.p2.1 + m.p3.1) / 4,
   (m.p0.2 + m.p1.2 + m.p2.2 + m.p3.2) / 4)

/-- `marker_center = corner.mean(axis=0).astype(int)`. -/
def markerCenter (m : Marker) : ℤ × ℤ :=
  (ratTrunc (cornerMean m).1, ratTrunc (cornerMean m).2)

/-- One pipeline tick: the wall-clock time `time.time()` at the tick, the
frame dimensions, the detector output (in detector order; `[]` models
`ids is None`), and whether the actuation, if dispatched this tick,
returns normally (`actOk = false` models a raise inside `move_to_qr`). -/
structure Tick where
  now : ℚ
  width : ℕ
  height : ℕ
  markers : List Marker
  actOk : Bool
deriving DecidableEq

/-- `center_frame = (width // 2, height // 2)`. -/
def centerFrame (t : Tick) : ℤ × ℤ :=
  ((t.width / 2 : ℕ), (t.height / 2 : ℕ))

/-- `convert_to_robot_coordinates`: relative pixel offsets to robot meters,
`x = rel_x / 1000.0`, `y = rel_y / 1000.0`, `z = 0.1` fixed. -/
def convert_to_robot_coordinates (rel_x rel_y : ℚ) : ℚ × ℚ × ℚ :=
  (rel_x / 1000, rel_y / 1000, 1/10)

/-- A command sent across the RoboDK (MotionLink) boundary. -/
inductive RCmd where
  | moveJ (x y z : ℚ)
  | runInstruction (name : String)
deriving DecidableEq

/-- `move_to_qr(x, y, z)`: the command sequence issued to the robot, in
order. Mirrors `pose.setPos([x*1000, y*1000, z*1000]); MoveJ;
RunInstruction("GripperClose"); pose.setPos([x*1000, y*1000,
(z+0.1)*1000]); MoveJ`. -/
def move_to_qr (x y z : ℚ) : List RCmd :=
  [RCmd.moveJ (x * 1000) (y * 1000) (z * 1000),
   RCmd.runInstruction "GripperClose",
   RCmd.moveJ (x * 1000) (y * 1000) ((z + 1/10) * 1000)]

/-- The target handed to `move_to_qr` for a marker on a tick: lines
287-291 of `update_frame` (truncated centroid, relative offsets from the
frame center, converted to robot coordinates). -/
def dispatchTarget (t : Tick) (m : Marker) : ℚ × ℚ × ℚ :=
  convert_to_robot_coordinates
    (((markerCenter m).1 - (centerFrame t).1 : ℤ) : ℚ)
    (((centerFrame t).2 - (markerCenter m).2 : ℤ) : ℚ)

/-- Observable outcome of one execution of the detection branch of
`update_frame`: the gate timestamp after the tick, the dispatched target
(if `move_to_qr` was called), whether the call raised, and the centroids
computed by the overlay loop (empty when the loop did not run). -/
structure TickResult where
  newLast : ℚ
  dispatched : Option (ℚ × ℚ × ℚ)
  raised : Bool
  overlays : List (ℤ × ℤ)
deriving DecidableEq

/-- The detection branch of `update_frame` (lines 279-314): when
detections are nonempty and `current_time - last_move_time > move_delay`,
dispatch `move_to_qr` on the first marker; `last_move_time` is assigned
only after `move_to_qr` returns, so a raise skips the assignment and the
overlay loop. -/
def updateTick (last : ℚ) (t : Tick) : TickResult :=
  match t.markers with
  | [] => ⟨last, none, false, []⟩
  | m :: _ =>
    if move_delay < t.now - last then
      if t.actOk then
        ⟨t.now, some (dispatchTarget t m), false, t.markers.map markerCenter⟩
      else
        ⟨last, some (dispatchTarget t m), true, []⟩
    else
      ⟨last, none, false, t.markers.map markerCenter⟩

/-- Runs a sequence of ticks through `updateTick` from a gate timestamp,
returning the final timestamp and the times of the MotionLink dispatches.
An uncaught raise inside the timer slot ends the tick loop, so processing
stops after a raising dispatch (which is still counted: commands were
sent before the raise). -/
def runTicks (last : ℚ) : List Tick → ℚ × List ℚ
  | [] => (last, [])
  | t :: ts =>
    match updateTick last t with
    | ⟨nl, none, _, _⟩ => runTicks nl ts
    | ⟨nl, some _, true, _⟩ => (nl, [t.now])
    | ⟨nl, some _, false, _⟩ =>
      ((runTicks nl ts).1, t.now :: (runTicks nl ts).2)

/-- Spec constant SCALE = 0.001 (pixel to meter). -/
def SCALE : ℚ := 1/1000

/-- Spec constant PICK_HEIGHT = 0.1 m. -/
def PICK_HEIGHT : ℚ := 1/10

/-- Spec constant LIFT_OFFSET = 0.1 m. -/
def LIFT_OFFSET : ℚ := 1/10

/-- Meters-to-millimeters conversion at the MotionLink wire boundary. -/
def toMM (v : ℚ) : ℚ := v * 1000

/-- GeometryMapper `toPhysical(centroid, origin)` as composed by the
pipeline: `rel_x = centroid.x - origin.x`, `rel_y = origin.y -
centroid.y`, then `convert_to_robot_coordinates`. -/
def toPhysical (centroid origin : ℤ × ℤ) : ℚ × ℚ × ℚ :=
  convert_to_robot_coordinates
    ((centroid.1 - origin.1 : ℤ) : ℚ) ((origin.2 - centroid.2 : ℤ) : ℚ)

/-- Spec-side definition, following the spec's words: the centroid of a
marker is "the mean of a marker's four corner points in pixel space". -/
def exactMean (m : Marker) : ℚ × ℚ :=
  ((m.p0.1 + m.p1.1 + m.p2.1 + m.p3.1) / 4,
   (m.p0.2 + m.p1.2 + m.p2.2 + m.p3.2) / 4)

/-- Event on the frame-source resource, in program order. -/
inductive CamEvent where
  | released (idx : ℕ)
  | opened (idx : ℕ) (ok : Bool)
deriving DecidableEq

/-- Camera state: `self.cap` as (device index, `isOpened()`), or `None`. -/
structure CamState where
  cap : Option (ℕ × Bool)
deriving DecidableEq

/-- `change_camera`: release the current capture if present, then open the
new index; on failure print an error and show "Camera not plugged in".
`avail` models which device indices `cv2.VideoCapture` can open. Returns
(new state, resource events in order, video-label status text). -/
def change_camera (avail : ℕ → Bool) (st : CamState) (newIndex : ℕ) :
    CamState × List CamEvent × String :=
  let rel : List CamEvent :=
    match st.cap with
    | some c => [CamEvent.released c.1]
    | none => []
  let ok := avail newIndex
  (⟨some (newIndex, ok)⟩, rel ++ [CamEvent.opened newIndex ok],
   if ok then "" else "Camera not plugged in")

/-- Full `update_frame` including the `self.cap.isOpened()` guard (lines
252-254): when the capture is absent or not opened, the tick is a no-op
that shows a status and returns without raising. -/
def updateFrame (st : CamState) (last : ℚ) (t : Tick) : TickResult :=
  match st.cap with
  | some c => if c.2 then updateTick last t else ⟨last, none, false, []⟩
  | none => ⟨last, none, false, []⟩

/-- Fixture: a square marker around (720, 320) in a 1280x720 frame. -/
def mW : Marker := ⟨(700, 300), (740, 300), (740, 340), (700, 340)⟩

/-- Fixture: a 10x11 marker whose corner mean (15, 31/2) is non-integral. -/
def mkQuad : Marker := ⟨(10, 10), (20, 10), (20, 21), (10, 21)⟩

/-- Fixture tick: one marker at time 10, actuation succeeds. -/
def tkW : Tick := ⟨10, 1280, 720, [mW], true⟩

/-- Fixture tick: one marker at time 10, actuation raises. -/
def tkF : Tick := ⟨10, 1280, 720, [mW], false⟩

/-- Fixture tick: one marker at exactly time 3 = `move_delay`. -/
def tkB : Tick := ⟨3, 1280, 720, [mW], true⟩

/-- Fixture tick: no detections at time 10. -/
def tkE : Tick := ⟨10, 1280, 720, [], true⟩

/-- Fixture availability map: no camera index can be opened. -/
def camAvailNone : ℕ → Bool := fun _ => false

/-- Fixture camera state: device 0 currently open. -/
def camSt0 : CamState := ⟨some (0, true)⟩

/-- A tick that dispatches nothing leaves the gate timestamp unchanged. -/
theorem updateTick_not_fired (last : ℚ) (t : Tick)
    (h : (updateTick last t).dispatched = none) :
    (updateTick last t).newLast = last := by
  obtain ⟨nw, w, ht, mk, ok⟩ := t
  cases mk with
  | nil => rfl
  | cons m ms =>
    simp only [updateTick] at *
    split_ifs at * <;> simp_all

/-- A dispatch happens only when strictly more than `move_delay` has
elapsed since the gate timestamp. -/
theorem updateTick_fired_lt (last : ℚ) (t : Tick) (tgt : ℚ × ℚ × ℚ)
    (h : (updateTick last t).dispatched = some tgt) :
    move_delay < t.now - last := by
  obtain ⟨nw, w, ht, mk, ok⟩ := t
  cases mk with
  | nil => simp [updateTick] at h
  | cons m ms =>
    simp only [updateTick] at *
    split_ifs at * <;> simp_all

/-- A dispatch that returns normally sets the gate timestamp to now. -/
theorem updateTick_fired_ok (last : ℚ) (t : Tick) (tgt : ℚ × ℚ × ℚ)
    (h : (updateTick last t).dispatched = some tgt)
    (hr : (updateTick last t).raised = false) :
    (updateTick last t).newLast = t.now := by
  obtain ⟨nw, w, ht, mk, ok⟩ := t
  cases mk with
  | nil => simp [updateTick] at h
  | cons m ms =>
    simp only [updateTick] at *
    split_ifs at * <;> simp_all

/-- A dispatch that raises leaves the gate timestamp unchanged. -/
theorem updateTick_fired_raised (last : ℚ) (t : Tick) (tgt : ℚ × ℚ × ℚ)
    (h : (updateTick last t).dispatched = some tgt)
    (hr : (updateTick last t).raised = true) :
    (updateTick last t).newLast = last := by
  obtain ⟨nw, w, ht, mk, ok⟩ := t
  cases mk with
  | nil => simp [updateTick] at h
  | cons m ms =>
    simp only [updateTick] at *
    split_ifs at * <;> simp_all

/-- Every dispatch time of a run lies strictly beyond the initial gate
timestamp plus the cooldown. -/
theorem runTicks_fires_gt (ts : List Tick) :
    ∀ last x, x ∈ (runTicks last ts).2 → last + move_delay < x := by
  induction ts with
  | nil => intro last x hx; simp [runTicks] at hx
  | cons t ts ih =>
    intro last x hx
    rcases hu : updateTick last t with ⟨nl, d, rz, ov⟩
    have hdpos : (0 : ℚ) < move_delay := by norm_num [move_delay]
    cases d with
    | none =>
      have hnl : nl = last := by
        have h2 := updateTick_not_fired last t (by rw [hu])
        rw [hu] at h2; exact h2
      simp only [runTicks, hu] at hx
      rw [hnl] at hx
      exact ih last x hx
    | some tgt =>
      have hlt : move_delay < t.now - last :=
        updateTick_fired_lt last t tgt (by rw [hu])
      cases rz with
      | true =>
        simp only [runTicks, hu, List.mem_singleton] at hx
        subst hx; linarith
      | false =>
        have hnl : nl = t.now := by
          have h2 := updateTick_fired_ok last t tgt (by rw [hu]) (by rw [hu])
          rw [hu] at h2; exact h2
        simp only [runTicks, hu, List.mem_cons] at hx
        rcases hx with h | h
        · subst h; linarith
        · have h3 := ih nl x h
          rw [hnl] at h3; linarith

/-- The dispatch times of a run are pairwise spaced by strictly more than
the cooldown interval. -/
theorem runTicks_fires_pairwise (ts : List Tick) :
    ∀ last, ((runTicks last ts).2).Pairwise (fun x y => x + move_delay < y) := by
  induction ts with
  | nil => intro last; simp [runTicks]
  | cons t ts ih =>
    intro last
    rcases hu : updateTick last t with ⟨nl, d, rz, ov⟩
    cases d with
    | none => simp only [runTicks, hu]; exact ih nl
    | some tgt =>
      cases rz with
      | true => simp only [runTicks, hu]; simp
      | false =>
        have hnl : nl = t.now := by
          have h2 := updateTick_fired_ok last t tgt (by rw [hu]) (by rw [hu])
          rw [hu] at h2; exact h2
        simp only [runTicks, hu]
        refine List.Pairwise.cons ?_ (ih nl)
        intro y hy
        have h3 := runTicks_fires_gt ts nl y hy
        rw [hnl] at h3; exact h3

/-- A list pairwise spaced by more than `move_delay` has at most one
element inside any closed window of length `move_delay`. -/
theorem pairwise_filter_window_len_le_one (l : List ℚ) (a : ℚ)
    (hp : l.Pairwise (fun x y => x + move_delay < y)) :
    (l.filter (fun x => decide (a ≤ x ∧ x ≤ a + move_delay))).length ≤ 1 := by
  have hf : (l.filter (fun x => decide (a ≤ x ∧ x ≤ a + move_delay))).Pairwise
      (fun x y => x + move_delay < y) :=
    hp.sublist (List.filter_sublist l)
  rcases hl : l.filter (fun x => decide (a ≤ x ∧ x ≤ a + move_delay)) with
    _ | ⟨x, _ | ⟨y, rest⟩⟩
  · simp
  · simp
  · exfalso
    rw [hl] at hf
    have hxy : x + move_delay < y := (List.pairwise_cons.mp hf).1 y (by simp)
    have hx : x ∈ l.filter (fun x => decide (a ≤ x ∧ x ≤ a + move_delay)) := by
      rw [hl]; simp
    have hy : y ∈ l.filter (fun x => decide (a ≤ x ∧ x ≤ a + move_delay)) := by
      rw [hl]; simp
    have px := List.of_mem_filter hx
    have py := List.of_mem_filter hy
    simp only [decide_eq_true_eq] at px py
    linarith [px.1, px.2, py.1, py.2]

/-- Evaluation rule for `ratTrunc` on nonnegative values. -/
theorem ratTrunc_eq_of_nonneg (q : ℚ) (z : ℤ) (h0 : 0 ≤ q)
    (h1 : (z : ℚ) ≤ q) (h2 : q < z + 1) : ratTrunc q = z := by
  rw [ratTrunc, if_pos h0]
  exact Int.floor_eq_iff.mpr ⟨h1, h2⟩

/-- C1: for every sequence of ticks processed by the pipeline from its
initial gate state, the number of MotionLink actuation dispatches whose
times fall in any closed window of length `move_delay` (the cooldown
interval) is at most 1, even when every tick carries detections. -/
theorem dispatch_window_at_most_one (ticks : List Tick) (a : ℚ) :
    (((runTicks init_last_move_time ticks).2).filter
      (fun x => decide (a ≤ x ∧ x ≤ a + move_delay))).length ≤ 1 :=
  pairwise_filter_window_len_le_one _ a
    (runTicks_fires_pairwise ticks init_last_move_time)

/-- C2 counterexample: with a nonempty detection list and
now − lastActuationTimestamp exactly equal to the cooldown interval
(last = 0, now = 3 = `move_delay`), the gate does not fire: the code
tests `current_time - self.last_move_time > self.move_delay` strictly. -/
theorem gate_boundary_does_not_fire :
    tkB.now - init_last_move_time = move_delay ∧ tkB.markers ≠ [] ∧
    (updateTick init_last_move_time tkB).dispatched = none := by
  refine ⟨by norm_num [tkB, init_last_move_time, move_delay], by simp [tkB], ?_⟩
  norm_num [updateTick, tkB, init_last_move_time, move_delay]

/-- C2 amended: for every nonempty detection list and timestamp with
now − lastActuationTimestamp strictly greater than the cooldown interval
(the exact boundary excluded, since the code's test is strict), with a
normally returning actuation, the gate fires: it dispatches exactly the
first detection in detector output order and sets the timestamp to now. -/
theorem gate_fires_on_first_detection (last : ℚ) (t : Tick) (m : Marker)
    (ms : List Marker) (hm : t.markers = m :: ms)
    (hlt : move_delay < t.now - last) (hok : t.actOk = true) :
    (updateTick last t).dispatched = some (dispatchTarget t m) ∧
    (updateTick last t).newLast = t.now ∧
    (updateTick last t).raised = false := by
  simp [updateTick, hm, hlt, hok]

/-- C2 witness: concrete firing at last = 0, now = 10 with one marker. -/
theorem gate_fires_on_first_detection_witness :
    (updateTick 0 tkW).dispatched = some (dispatchTarget tkW mW) ∧
    (updateTick 0 tkW).newLast = tkW.now ∧
    (updateTick 0 tkW).raised = false :=
  gate_fires_on_first_detection 0 tkW mW [] rfl (by norm_num [tkW, move_delay]) rfl

/-- C3 counterexample: a dispatched actuation that raises (tick at time
10 with a marker, `actOk = false`) leaves the gate timestamp at its old
value 0 instead of updating it to the dispatch time 10 — the assignment
`self.last_move_time = current_time` follows the `move_to_qr` call and is
skipped when the call raises, so "updated regardless of outcome" fails. -/
theorem failed_actuation_skips_timestamp :
    ((updateTick init_last_move_time tkF).dispatched).isSome = true ∧
    (updateTick init_last_move_time tkF).raised = true ∧
    (updateTick init_last_move_time tkF).newLast = init_last_move_time ∧
    tkF.now = 10 ∧ init_last_move_time ≠ tkF.now := by
  norm_num [updateTick, tkF, init_last_move_time, move_delay]

/-- C3 amended: the gate timestamp is set to the dispatch time exactly
when an actuation was dispatched and returned without raising; when the
dispatched actuation raises, the update is skipped and the timestamp
keeps its previous value (the exception propagates out of the tick). -/
theorem timestamp_update_iff_actuation_returns (last : ℚ) (t : Tick) :
    (updateTick last t).newLast =
      if ((updateTick last t).dispatched.isSome && !(updateTick last t).raised)
      then t.now else last := by
  obtain ⟨nw, w, ht, mk, ok⟩ := t
  cases mk with
  | nil => simp [updateTick]
  | cons m ms =>
    cases ok <;> by_cases h1 : move_delay < nw - last <;>
      simp [updateTick, h1]

/-- C4: the pipeline's pixel-to-physical transform computes
x = (centroid.x − origin.x) · SCALE and y = (origin.y − centroid.y) ·
SCALE with SCALE = 0.001 and constant z = PICK_HEIGHT; it maps centroid
(740, 260) with origin (640, 360) to (0.1, 0.1, PICK_HEIGHT); and it is
odd-symmetric: centroids at origin + (dx, dy) and origin − (dx, dy) give
exactly negated x and y. -/
theorem transform_linear_odd (c o d : ℤ × ℤ) :
    toPhysical c o =
      (((c.1 - o.1 : ℤ) : ℚ) * SCALE, ((o.2 - c.2 : ℤ) : ℚ) * SCALE, PICK_HEIGHT) ∧
    (toPhysical (o + d) o).1 = -(toPhysical (o - d) o).1 ∧
    (toPhysical (o + d) o).2.1 = -(toPhysical (o - d) o).2.1 ∧
    toPhysical (740, 260) (640, 360) = (1/10, 1/10, PICK_HEIGHT) := by
  refine ⟨?_, ?_, ?_,
    by norm_num [toPhysical, convert_to_robot_coordinates, PICK_HEIGHT,
      Prod.mk.injEq]⟩
  · simp only [toPhysical, convert_to_robot_coordinates, SCALE, PICK_HEIGHT,
      Prod.mk.injEq]
    exact ⟨by ring, by ring, trivial⟩
  · simp only [toPhysical, convert_to_robot_coordinates, Prod.fst_add,
      Prod.fst_sub]
    push_cast
    ring
  · simp only [toPhysical, convert_to_robot_coordinates, Prod.snd_add,
      Prod.snd_sub]
    push_cast
    ring

/-- C5: for every dispatched target (x, y, z) the actuation issues exactly
the sequence: move to (x, y, z), run the "GripperClose" instruction, move
to (x, y, z + LIFT_OFFSET) with LIFT_OFFSET = 0.1 and x, y unchanged in
the lift move; and every coordinate crossing the MotionLink boundary is
the internal meters value converted to millimeters (times 1000). -/
theorem actuate_sequence (x y z : ℚ) :
    move_to_qr x y z =
      [RCmd.moveJ (toMM x) (toMM y) (toMM z),
       RCmd.runInstruction "GripperClose",
       RCmd.moveJ (toMM x) (toMM y) (toMM (z + LIFT_OFFSET))] := rfl

/-- C6: a tick with an empty detection list leaves the gate state
unchanged, dispatches nothing to MotionLink, raises nothing, and draws no
overlays. -/
theorem empty_detections_noop (last : ℚ) (t : Tick) (h : t.markers = []) :
    updateTick last t = ⟨last, none, false, []⟩ := by
  unfold updateTick
  rw [h]

/-- C6 witness: the empty-detection tick `tkE` at time 10. -/
theorem empty_detections_noop_witness :
    updateTick init_last_move_time tkE =
      ⟨init_last_move_time, none, false, []⟩ :=
  empty_detections_noop init_last_move_time tkE rfl

/-- C8 counterexample: for the marker with corners (10,10), (20,10),
(20,21), (10,21) the exact mean of the corners is (15, 31/2), but the
centroid the pipeline uses, `corner.mean(axis=0).astype(int)`, is
(15, 15): its y coordinate is not the exact arithmetic mean. -/
theorem centroid_not_exact_mean :
    exactMean mkQuad = (15, 31/2) ∧ markerCenter mkQuad = (15, 15) ∧
    ((markerCenter mkQuad).2 : ℚ) ≠ (exactMean mkQuad).2 := by
  have hx : (cornerMean mkQuad).1 = 15 := by norm_num [cornerMean, mkQuad]
  have hy : (cornerMean mkQuad).2 = 31/2 := by norm_num [cornerMean, mkQuad]
  have h1 : ratTrunc (cornerMean mkQuad).1 = 15 := by
    rw [hx]
    exact ratTrunc_eq_of_nonneg _ 15 (by norm_num) (by norm_num) (by norm_num)
  have h2 : ratTrunc (cornerMean mkQuad).2 = 15 := by
    rw [hy]
    exact ratTrunc_eq_of_nonneg _ 15 (by norm_num) (by norm_num) (by norm_num)
  refine ⟨by norm_num [exactMean, mkQuad, Prod.mk.injEq], ?_, ?_⟩
  · simp [markerCenter, h1, h2]
  · have hy2 : (exactMean mkQuad).2 = 31/2 := by norm_num [exactMean, mkQuad]
    simp only [markerCenter]
    rw [h2, hy2]
    norm_num

/-- C8 amended: the centroid the pipeline uses — in the dispatch target
and in every overlay annotation — is the coordinatewise truncation toward
zero (numpy `astype(int)`) of the exact arithmetic mean of the marker's
four corner points, rather than the exact mean itself; the overlay loop
is skipped on a tick whose actuation raises. -/
theorem centroid_is_truncated_mean (last : ℚ) (t : Tick) (m : Marker) :
    markerCenter m = (ratTrunc (exactMean m).1, ratTrunc (exactMean m).2) ∧
    dispatchTarget t m = toPhysical (markerCenter m) (centerFrame t) ∧
    (updateTick last t).overlays =
      if (updateTick last t).raised then []
      else t.markers.map
        (fun mm => (ratTrunc (exactMean mm).1, ratTrunc (exactMean mm).2)) := by
  refine ⟨rfl, rfl, ?_⟩
  obtain ⟨nw, w, ht, mk, ok⟩ := t
  cases mk with
  | nil => simp [updateTick]
  | cons mh ms =>
    cases ok <;> by_cases h1 : move_delay < nw - last <;>
      simp [updateTick, h1, markerCenter, exactMean, cornerMean]

/-- C9: switching the frame source releases the previously active capture
strictly before opening the newly requested index, for every request; and
when the requested index cannot be opened, the handler surfaces the
failure status "Camera not plugged in" and the next `update_frame` tick
on the resulting state is a safe no-op (no raise, no dispatch, gate state
unchanged), so the pipeline keeps ticking. -/
theorem change_camera_safe (avail : ℕ → Bool) (st : CamState) (c : ℕ × Bool)
    (hc : st.cap = some c) (idx : ℕ) (last : ℚ) (t : Tick) :
    (change_camera avail st idx).2.1 =
      [CamEvent.released c.1, CamEvent.opened idx (avail idx)] ∧
    (avail idx = false →
      (change_camera avail st idx).2.2 = "Camera not plugged in" ∧
      (updateFrame (change_camera avail st idx).1 last t).raised = false ∧
      (updateFrame (change_camera avail st idx).1 last t).dispatched = none ∧
      (updateFrame (change_camera avail st idx).1 last t).newLast = last) := by
  constructor
  · simp [change_camera, hc]
  · intro hbad
    simp [change_camera, updateFrame, hc, hbad]

/-- C9 witness: switching from open device 0 to unavailable index 1. -/
theorem change_camera_safe_witness :
    (change_camera camAvailNone camSt0 1).2.1 =
      [CamEvent.released 0, CamEvent.opened 1 false] ∧
    (change_camera camAvailNone camSt0 1).2.2 = "Camera not plugged in" ∧
    (updateFrame (change_camera camAvailNone camSt0 1).1 0 tkW).dispatched =
      none := by
  have h := change_camera_safe camAvailNone camSt0 (0, true) rfl 1 0 tkW
  exact ⟨h.1, (h.2 rfl).1, (h.2 rfl).2.2.1⟩

/-- C10: the initial gate timestamp is 0, so the very first tick with a
nonempty detection list at any time strictly greater than the cooldown
interval fires immediately: a MotionLink dispatch is issued for the first
detection, with no cooldown waited after startup. -/
theorem first_tick_fires (t : Tick) (m : Marker) (ms : List Marker)
    (hm : t.markers = m :: ms) (hnow : move_delay < t.now) :
    init_last_move_time = 0 ∧
    (updateTick init_last_move_time t).dispatched = some (dispatchTarget t m) := by
  refine ⟨rfl, ?_⟩
  have hlt : move_delay < t.now - init_last_move_time := by
    simpa [init_last_move_time] using hnow
  cases hok : t.actOk <;> simp [updateTick, hm, hlt, hok]

/-- C10 witness: the first tick `tkW` at time 10 > 3 fires. -/
theorem first_tick_fires_witness :
    init_last_move_time = 0 ∧
    (updateTick init_last_move_time tkW).dispatched =
      some (dispatchTarget tkW mW) :=
  first_tick_fires tkW mW [] rfl (by norm_num [tkW, move_delay])

end MiscareRobot
